import Mathlib

/-!
Verification of the grocery-chatbot repository's context-merging query
resolver, deterministic filter/rank engine, session orchestrator and React
frontend against its natural-language specification.

The backend modules (`query_translator.py`, `product_search.py`,
`conversation_memory.py`, `api_server.py`) are not present in the source
tree; their behaviour is modelled from the specification (and the
repository README's module contracts).  The React frontend
(`App.jsx`, `ChatInput`, `ProductCard`) is embedded from its source.

All string primitives are re-implemented structurally over `List Char`
so that every definition evaluates by kernel reduction on concrete
inputs.
-/

/-! ### Character-level string helpers (JS `trim`, `toLowerCase`, substring) -/

/-- Does `pat` match the beginning of `hay`? -/
def chStart : List Char → List Char → Bool
  | [], _ => true
  | _ :: _, [] => false
  | p :: ps, h :: hs => (p == h) && chStart ps hs

/-- Does `pat` occur contiguously anywhere inside `hay`? -/
def chFind (pat : List Char) : List Char → Bool
  | [] => pat.isEmpty
  | h :: hs => chStart pat (h :: hs) || chFind pat hs

/-- Lower-case every character of a string (JS `toLowerCase`). -/
def lowerStr (s : String) : String := ⟨s.data.map Char.toLower⟩

/-- Substring test (JS `includes`). -/
def strContains (hay pat : String) : Bool := chFind pat.data hay.data

/-- Case-insensitive substring test (Python `pat.lower() in hay.lower()`). -/
def strContainsCI (hay pat : String) : Bool :=
  chFind (lowerStr pat).data (lowerStr hay).data

/-- Strip leading and trailing whitespace (JS `trim`). -/
def jsTrim (s : String) : String :=
  ⟨((s.data.dropWhile Char.isWhitespace).reverse.dropWhile Char.isWhitespace).reverse⟩

/-! ### Data model (spec §3) -/

/-- `price_filter`: an operator among `<, <=, >, >=, ==` and a decimal value. -/
structure PriceFilter where
  operator : String
  value : ℚ
  deriving DecidableEq, Repr

/-- `sort_by` enumeration. -/
inductive SortBy where
  | price_asc
  | price_desc
  | name
  deriving DecidableEq, Repr

/-- **StructuredQuery** — the negotiated filter state (spec §3).
Set-valued fields are kept as lists; only display order is significant. -/
structure StructuredQuery where
  vendors : List String
  exclude_vendors : List String
  product_types : List String
  brand : Option String
  tags : List String
  price_filter : Option PriceFilter
  sort_by : Option SortBy
  keywords : List String
  deriving DecidableEq, Repr

/-- The all-empty structured query: every set field empty, every optional
field unset. -/
def emptyQuery : StructuredQuery :=
  { vendors := [], exclude_vendors := [], product_types := [], brand := none,
    tags := [], price_filter := none, sort_by := none, keywords := [] }

/-- **ProductRecord** (spec §3): immutable catalog entry. -/
structure ProductRecord where
  id : String
  name : String
  brand : String
  price : ℚ
  vendor : String
  category : String
  tags : List String
  calories : Option Nat
  image : Option String
  deriving DecidableEq, Repr

/-- Modelled from the spec: the oracle's **raw suggestion** — a partial
StructuredQuery in which each field is wrapped in an explicit presence
flag (`Option`), so that "field absent" (inherit) is distinguished from
"field explicitly empty" (clear), as required by spec §6/§9.  The missing
source is `query_translator.py`.  `vendor_reset` is the oracle-side
vendor-reset signal of spec rule 4.1.5. -/
structure Suggestion where
  vendors : Option (List String)
  exclude_vendors : Option (List String)
  product_types : Option (List String)
  brand : Option (Option String)
  tags : Option (List String)
  price_filter : Option (Option PriceFilter)
  sort_by : Option (Option SortBy)
  keywords : Option (List String)
  vendor_reset : Bool
  deriving DecidableEq, Repr

/-- The suggestion that mentions no field at all. -/
def emptySuggestion : Suggestion :=
  { vendors := none, exclude_vendors := none, product_types := none,
    brand := none, tags := none, price_filter := none, sort_by := none,
    keywords := none, vendor_reset := false }

/-- Is this optional set-field explicitly present with a non-empty value? -/
def assertedNonEmptyS : Option (List String) → Bool
  | some (_ :: _) => true
  | _ => false

/-! ### Query Resolver (spec §4.1), modelled from the spec -/

/-- Modelled from the spec: the fuzzy mapping table of rule 4.1.6 — a
static, data-driven mapping from generic category phrase to expansion
set (spec §9). -/
def fuzzyTable : List (String × List String) :=
  [("food items", ["sandwich", "bagel", "snack", "salad"]),
   ("food", ["sandwich", "bagel", "snack", "salad"]),
   ("beverages", ["drink"]),
   ("drinks", ["drink"])]

/-- Fuzzy category phrase detected inside the raw utterance text. -/
def fuzzyFromText (t : String) : Option (List String) :=
  (fuzzyTable.find? (fun e => strContainsCI t e.1)).map Prod.snd

/-- Fuzzy category phrase appearing verbatim in the suggestion's
`product_types`. -/
def fuzzyFromSugg (s : Suggestion) : Option (List String) :=
  match s.product_types with
  | some l => (fuzzyTable.find? (fun e => l.contains e.1)).map Prod.snd
  | none => none

/-- Rule 4.1.6: expansion triggered by the suggestion or the utterance. -/
def fuzzyFor (t : String) (s : Suggestion) : Option (List String) :=
  match fuzzyFromSugg s with
  | some e => some e
  | none => fuzzyFromText t

/-- Vendor-reset phrases of rule 4.1.5. -/
def vendorResetPhrases : List String := ["all shops", "any vendor"]

/-- Rule 4.1.5: does the utterance (or the oracle suggestion) signal a
vendor reset? -/
def signalsVendorReset (t : String) (s : Suggestion) : Bool :=
  s.vendor_reset || vendorResetPhrases.any (fun p => strContainsCI t p)

/-- Modelled from the spec: the Query Resolver of spec §4.1 (the missing
source is `query_translator.py`).  On oracle failure (`sugg = none`) the
translator returns the empty query (spec §4.1.1: an empty suggestion
"causes the Engine to later return zero results"; README: "on parse
error, returns empty query").  Otherwise: inheritance for absent fields,
override for present fields, vendor mutual exclusion (rule 4, inclusion
taking priority when the oracle illegally asserts both), vendor reset
(rule 5), fuzzy expansion (rule 6), and the type-change cascade (rule 7)
clearing `tags` and `keywords` whenever a category is genuinely
asserted (explicitly or by fuzzy expansion), even when the asserted
value textually equals the prior one (Scenario D). -/
def resolve (user_text : String) (prior : StructuredQuery)
    (sugg : Option Suggestion) : StructuredQuery :=
  match sugg with
  | none => emptyQuery
  | some s =>
    let reset := signalsVendorReset user_text s
    let fuzzy := fuzzyFor user_text s
    let newCat := assertedNonEmptyS s.product_types || fuzzy.isSome
    { vendors :=
        if reset then []
        else if assertedNonEmptyS s.exclude_vendors && !assertedNonEmptyS s.vendors then []
        else s.vendors.getD prior.vendors,
      exclude_vendors :=
        if reset then []
        else if assertedNonEmptyS s.vendors then []
        else s.exclude_vendors.getD prior.exclude_vendors,
      product_types :=
        match fuzzy with
        | some e => e
        | none => s.product_types.getD prior.product_types,
      brand := s.brand.getD prior.brand,
      tags := if newCat then [] else s.tags.getD prior.tags,
      price_filter := s.price_filter.getD prior.price_filter,
      sort_by := s.sort_by.getD prior.sort_by,
      keywords := if newCat then [] else s.keywords.getD prior.keywords }

/-- Invariant I1 (spec §3): inclusion and exclusion vendor filters are
never both active. -/
def vendorExclusionInv (q : StructuredQuery) : Prop :=
  q.vendors = [] ∨ q.exclude_vendors = []

/-- The resolver preserves invariant I1: if the prior state satisfies it,
so does every resolved query. -/
theorem resolve_preserves_inv (t : String) (prior : StructuredQuery)
    (sugg : Option Suggestion) (h : vendorExclusionInv prior) :
    vendorExclusionInv (resolve t prior sugg) := by
  match sugg with
  | none => left; rfl
  | some s =>
    unfold resolve vendorExclusionInv
    by_cases hr : signalsVendorReset t s = true
    · left; simp [hr]
    · simp only [Bool.not_eq_true] at hr
      by_cases hv : assertedNonEmptyS s.vendors = true
      · right; simp [hr, hv]
      · simp only [Bool.not_eq_true] at hv
        by_cases he : assertedNonEmptyS s.exclude_vendors = true
        · left; simp [hr, hv, he]
        · simp only [Bool.not_eq_true] at he
          simp only [hr, hv, he, Bool.false_and, Bool.and_false, if_false,
            Bool.false_eq_true, ite_false]
          match hsv : s.vendors, hse : s.exclude_vendors with
          | some l, _ =>
            match l, hsv with
            | [], _ => left; rfl
            | _ :: _, hsv => rw [hsv] at hv; simp [assertedNonEmptyS] at hv
          | none, some l' =>
            match l', hse with
            | [], _ => right; rfl
            | _ :: _, hse => rw [hse] at he; simp [assertedNonEmptyS] at he
          | none, none => simpa [Option.getD] using h

/-! ### Filter & Rank Engine (spec §4.2), modelled from the spec
The missing source is `product_search.py`. -/

/-- Modelled from the spec: one clause of the AND-ed filter predicate —
the price clause, with unrecognized operators treated as absent
(spec §7b, InvalidPriceOperator). -/
def priceMatches (pf : PriceFilter) (p : ℚ) : Bool :=
  if pf.operator = "<" then decide (p < pf.value)
  else if pf.operator = "<=" then decide (p ≤ pf.value)
  else if pf.operator = ">" then decide (pf.value < p)
  else if pf.operator = ">=" then decide (pf.value ≤ p)
  else if pf.operator = "==" then decide (p = pf.value)
  else true

/-- Modelled from the spec: the filter predicate of spec §4.2 — all
clauses AND-ed, each internally OR/ALL as noted. -/
def matchesFilter (q : StructuredQuery) (r : ProductRecord) : Bool :=
  (q.vendors.isEmpty || q.vendors.contains r.vendor) &&
  (q.exclude_vendors.isEmpty || !q.exclude_vendors.contains r.vendor) &&
  (q.product_types.isEmpty || q.product_types.contains r.category) &&
  (match q.brand with
   | none => true
   | some b => strContainsCI r.brand b) &&
  (q.tags.all (fun t => r.tags.contains t)) &&
  (match q.price_filter with
   | none => true
   | some pf => priceMatches pf r.price) &&
  (q.keywords.isEmpty ||
    q.keywords.any (fun k => strContainsCI r.name k || strContainsCI r.brand k))

/-- Comparator for `sort_by = price_asc`: ascending by price, ties broken
by name ascending (spec §4.2). -/
def leAsc (a b : ProductRecord) : Bool :=
  decide (a.price < b.price) || (decide (a.price = b.price) && decide (a.name ≤ b.name))

/-- Comparator for `sort_by = price_desc`: descending by price, ties by
name ascending (spec §4.2). -/
def leDesc (a b : ProductRecord) : Bool :=
  decide (b.price < a.price) || (decide (a.price = b.price) && decide (a.name ≤ b.name))

/-- Comparator for `sort_by = name`: ascending alphabetical,
case-insensitive (spec §4.2). -/
def leName (a b : ProductRecord) : Bool :=
  decide (lowerStr a.name ≤ lowerStr b.name)

/-- Insert into a list sorted by `le`, before the first element it is
`le`-below (stable insertion). -/
def insLe (le : ProductRecord → ProductRecord → Bool) (a : ProductRecord) :
    List ProductRecord → List ProductRecord
  | [] => [a]
  | b :: bs => if le a b then a :: b :: bs else b :: insLe le a bs

/-- Stable insertion sort by `le` (the engine's deterministic sort). -/
def sortRecords (le : ProductRecord → ProductRecord → Bool) :
    List ProductRecord → List ProductRecord
  | [] => []
  | a :: as => insLe le a (sortRecords le as)

/-- Modelled from the spec: sorting pass of spec §4.2 — if `sort_by` is
unset, catalog iteration order is preserved. -/
def sortResults (q : StructuredQuery) (rs : List ProductRecord) :
    List ProductRecord :=
  match q.sort_by with
  | none => rs
  | some SortBy.price_asc => sortRecords leAsc rs
  | some SortBy.price_desc => sortRecords leDesc rs
  | some SortBy.name => sortRecords leName rs

/-- A single reason annotation, applied independently per field
(spec §4.2); the user-visible reason string concatenates the rendered
parts. -/
inductive Reason where
  | priceBound (operator : String) (value : ℚ)
  | taggedWith (tags : List String)
  | cheapest
  | mostExpensive
  | generic
  deriving DecidableEq, Repr

/-- Render one reason annotation as text. -/
def Reason.render : Reason → String
  | .priceBound op v => "price " ++ op ++ " " ++ toString v.num ++ "/" ++ toString v.den
  | .taggedWith ts => "tagged " ++ String.intercalate ", " ts
  | .cheapest => "cheapest option"
  | .mostExpensive => "most expensive option"
  | .generic => "matches your search"

/-- **RankedResult** (spec §3): a product record plus its reason
annotations. -/
structure RankedResult where
  record : ProductRecord
  reasons : List Reason
  deriving DecidableEq, Repr

/-- The user-visible reason string: the concatenation of the applicable
annotations, or the generic reason when none apply (spec §4.2). -/
def RankedResult.reason (rr : RankedResult) : String :=
  match rr.reasons with
  | [] => Reason.render Reason.generic
  | rs => String.intercalate "; " (rs.map Reason.render)

/-- Modelled from the spec: the per-result reason annotations that apply
uniformly to every result — the price bound satisfied and the matched
tags (spec §4.2). -/
def baseReasons (q : StructuredQuery) : List Reason :=
  (match q.price_filter with
   | some pf => [Reason.priceBound pf.operator pf.value]
   | none => []) ++
  (if q.tags.isEmpty then [] else [Reason.taggedWith q.tags])

/-- Modelled from the spec: the extremal annotation of spec §4.2 — when
sorting by price with no `price_filter`, only the top (extremal) result
of the pre-truncation set receives "cheapest option" /
"most expensive option". -/
def extremalReason (q : StructuredQuery) : List Reason :=
  if q.price_filter.isSome then []
  else
    match q.sort_by with
    | some SortBy.price_asc => [Reason.cheapest]
    | some SortBy.price_desc => [Reason.mostExpensive]
    | _ => []

/-- Modelled from the spec: reason annotation pass, computed per result
after filtering and sorting; the first (extremal) result additionally
receives the extremal annotation. -/
def annotateResults (q : StructuredQuery) :
    List ProductRecord → List RankedResult
  | [] => []
  | r :: rest =>
    ⟨r, baseReasons q ++ extremalReason q⟩ ::
      rest.map (fun x => ⟨x, baseReasons q⟩)

/-- Is every field of the query empty/unset? -/
def isEmptyQuery (q : StructuredQuery) : Bool :=
  q.vendors.isEmpty && q.exclude_vendors.isEmpty && q.product_types.isEmpty &&
  q.brand.isNone && q.tags.isEmpty && q.price_filter.isNone &&
  q.sort_by.isNone && q.keywords.isEmpty

/-- Modelled from the spec: the full (pre-truncation) result sequence for
a query — filter, then sort, then annotate; the all-empty query yields no
results rather than the whole catalog (spec §4.2). -/
def searchAll (q : StructuredQuery) (catalog : List ProductRecord) :
    List RankedResult :=
  if isEmptyQuery q then []
  else annotateResults q (sortResults q (catalog.filter (matchesFilter q)))

/-- Modelled from the spec: `search` of spec §4.2 — the full
filtered/sorted/annotated result sequence, truncated to `limit` at the
very end. -/
def search (q : StructuredQuery) (catalog : List ProductRecord)
    (limit : Nat) : List RankedResult :=
  (searchAll q catalog).take limit

/-! ### Context State and Session Orchestrator (spec §4.3, §4.4),
modelled from the spec.  The missing sources are `conversation_memory.py`
and `api_server.py`. -/

/-- **ConversationState** (spec §3): the current structured query plus
the last raw user utterance. -/
structure ConvState where
  query : StructuredQuery
  last_utterance : String
  deriving DecidableEq, Repr

/-- The initial (and post-reset) conversation state: fully cleared. -/
def initConvState : ConvState := ⟨emptyQuery, ""⟩

/-- Reset keywords recognized by the orchestrator (spec §4.4,
case-insensitive after trimming). -/
def resetKeywords : List String := ["reset"]

/-- Does the utterance, case-insensitively and trimmed, equal a reset
keyword? -/
def isResetCommand (t : String) : Bool :=
  resetKeywords.contains (lowerStr (jsTrim t))

/-- The fixed confirmation message returned by a reset turn (spec §4.4). -/
def resetConfirmMessage : String :=
  "Conversation reset! How can I help you with your grocery shopping?"

/-- Modelled from the spec: the generic apologetic message shown with
zero products — spec §7: "the only user-visible failure behavior is a
generic apologetic message plus zero products". -/
def backendNoResultsMessage : String :=
  "Sorry, I could not find any matching products."

/-- Message accompanying a non-empty result list (free text, delegated to
presentation by spec §4.4). -/
def backendResultsMessage : String := "Here is what I found."

/-- Modelled from the spec: response-message assembly (spec §4.4/§7). -/
def assembleMessage (results : List RankedResult) : String :=
  if results.isEmpty then backendNoResultsMessage else backendResultsMessage

/-- The orchestrator's per-turn response payload (spec §4.4). -/
structure TurnResponse where
  message : String
  products : List RankedResult
  filters_used : StructuredQuery
  deriving DecidableEq, Repr

/-- Modelled from the spec: `handle_turn` of spec §4.4.  A reset command
bypasses Resolver and Engine entirely and returns the fixed confirmation
with empty products; otherwise the resolved query replaces the state and
the engine runs with `limit = 3`.  The oracle outcome is passed in as
`sugg` (`none` = oracle failure). -/
def handleTurn (user_text : String) (sugg : Option Suggestion)
    (catalog : List ProductRecord) (st : ConvState) :
    ConvState × TurnResponse :=
  if isResetCommand user_text then
    (initConvState, ⟨resetConfirmMessage, [], emptyQuery⟩)
  else
    let q := resolve user_text st.query sugg
    let results := search q catalog 3
    (⟨q, user_text⟩, ⟨assembleMessage results, results, q⟩)

/-- Run a whole conversation: fold `handleTurn` over a list of turns
(utterance, oracle outcome, catalog), starting from a given state. -/
def runTurns : ConvState → List (String × Option Suggestion × List ProductRecord) → ConvState
  | st, [] => st
  | st, (t, s, cat) :: rest => runTurns (handleTurn t s cat st).1 rest

/-! ### Frontend embedding (from `src/unnamed/part_000` = `App.jsx` and
`ProductCard.jsx`'s `ChatInput`). -/

/-- A chat message as held in the React `messages` state.  A JS message
object with no `products` field is modelled with an empty product list
(the UI renders products only when the list is non-empty). -/
structure ChatMsg where
  isUser : Bool
  content : String
  products : List RankedResult
  deriving DecidableEq, Repr

/-- The React component state of `App`: the message list and the loading
flag. -/
structure AppState where
  messages : List ChatMsg
  isLoading : Bool
  deriving DecidableEq, Repr

/-- Outcome of the axios POST to `/api/chat`: a response body (whose
`products` field may be absent) or a thrown error. -/
inductive BackendReply where
  | ok (message : String) (products : Option (List RankedResult))
  | failure
  deriving DecidableEq, Repr

/-- The fixed frontend error message of `App.jsx`'s catch block. -/
def frontendErrorText : String :=
  "❌ Sorry, I encountered an error. Please make sure the backend server is running on port 5000."

/-- `handleSendMessage` from `App.jsx` (src/unnamed/part_000, lines
32-70), as a state transition.  Returns the new state and whether an
HTTP request was issued.  Blank input (falsy `userMessage.trim()`)
returns immediately.  Otherwise the user message is appended and loading
set; on success the bot message carries `botResponse.products || []`; on
error the fixed error message with no products; `finally` clears the
loading flag. -/
def handleSendMessage (userMessage : String) (reply : BackendReply)
    (st : AppState) : AppState × Bool :=
  if jsTrim userMessage = "" then (st, false)
  else
    let afterUser : AppState :=
      { messages := st.messages ++ [⟨true, userMessage, []⟩], isLoading := true }
    match reply with
    | .ok m ps =>
      ({ messages := afterUser.messages ++ [⟨false, m, ps.getD []⟩],
         isLoading := false }, true)
    | .failure =>
      ({ messages := afterUser.messages ++ [⟨false, frontendErrorText, []⟩],
         isLoading := false }, true)

/-- `ChatInput.handleSubmit` (ProductCard.jsx lines 72-78): invokes
`onSendMessage` with the raw input only when the trimmed input is truthy
and the component is not disabled. -/
def chatInputSubmit (input : String) (disabled : Bool) : Option String :=
  if jsTrim input ≠ "" && !disabled then some input else none

/-- The send button's `disabled` attribute (ProductCard.jsx lines
109-115): `disabled || !input.trim()`. -/
def sendButtonDisabled (input : String) (disabled : Bool) : Bool :=
  disabled || jsTrim input = ""

/-! ### Claim C1: vendor mutual exclusion (spec P1 / I1 / rule 4.1.4) -/

/-- Claim C1: for every resolved StructuredQuery produced by the Query
Resolver — and therefore for every ConversationState ever stored, i.e.
every state reachable by running turns from the initial state — the
fields `vendors` and `exclude_vendors` are never both non-empty; the
resolver preserves the invariant from any prior satisfying it,
regardless of oracle outcome. -/
theorem claim1_vendor_mutual_exclusion :
    (∀ trace, vendorExclusionInv (runTurns initConvState trace).query)
    ∧ (∀ t prior sugg, vendorExclusionInv prior →
        vendorExclusionInv (resolve t prior sugg)) := by
  constructor
  · have aux : ∀ trace st, vendorExclusionInv st.query →
        vendorExclusionInv (runTurns st trace).query := by
      intro trace
      induction trace with
      | nil => intro st h; exact h
      | cons turn rest ih =>
        intro st h
        obtain ⟨t, s, cat⟩ := turn
        show vendorExclusionInv (runTurns (handleTurn t s cat st).1 rest).query
        apply ih
        unfold handleTurn
        by_cases hr : isResetCommand t = true
        · simp [hr, initConvState, emptyQuery, vendorExclusionInv]
        · simp only [Bool.not_eq_true] at hr
          simp only [hr, Bool.false_eq_true, if_false]
          exact resolve_preserves_inv t st.query s h
    exact fun trace => aux trace initConvState (Or.inl rfl)
  · exact resolve_preserves_inv

/-- Witness for C1 at a concrete input: a prior with an active exclusion
filter satisfies the invariant, and so does the resolution of a
vendor-asserting suggestion against it. -/
theorem claim1_witness :
    vendorExclusionInv (StructuredQuery.mk [] ["ASDA"] [] none [] none none [])
    ∧ vendorExclusionInv (resolve "from Subway"
        (StructuredQuery.mk [] ["ASDA"] [] none [] none none [])
        (some { emptySuggestion with vendors := some ["Subway"] })) :=
  ⟨Or.inl rfl,
   claim1_vendor_mutual_exclusion.2 "from Subway"
     (StructuredQuery.mk [] ["ASDA"] [] none [] none none [])
     (some { emptySuggestion with vendors := some ["Subway"] }) (Or.inl rfl)⟩

/-! ### Claim C2: empty-query safety (spec P2) -/

/-- Claim C2: searching with the all-empty StructuredQuery returns the
empty sequence for every catalog and every limit, never the whole
catalog. -/
theorem claim2_empty_query_safety (catalog : List ProductRecord) (limit : Nat) :
    search emptyQuery catalog limit = [] := by
  simp [search, searchAll, isEmptyQuery, emptyQuery]

/-! ### Claim C3: truncation correctness (spec P3) -/

/-- Claim C3: the search result has length at most `n` and equals the
first `n` elements of the full filtered/sorted/annotated result for the
same query; the untruncated result is the complete filter-sort-annotate
pipeline, so truncation happens only after filtering and sorting. -/
theorem claim3_truncation (q : StructuredQuery) (catalog : List ProductRecord)
    (n : Nat) :
    (search q catalog n).length ≤ n
    ∧ search q catalog n = (searchAll q catalog).take n
    ∧ (isEmptyQuery q = false →
        searchAll q catalog =
          annotateResults q (sortResults q (catalog.filter (matchesFilter q)))) :=
  ⟨List.length_take_le n _, rfl, fun h => by simp [searchAll, h]⟩

/-- Witness for C3 at a concrete input: a query with only `sort_by` set
is not the empty query, and its full result is the filter-sort-annotate
pipeline. -/
theorem claim3_witness :
    isEmptyQuery (StructuredQuery.mk [] [] [] none [] none (some SortBy.name) []) = false
    ∧ searchAll (StructuredQuery.mk [] [] [] none [] none (some SortBy.name) []) [] =
        annotateResults (StructuredQuery.mk [] [] [] none [] none (some SortBy.name) [])
          (sortResults (StructuredQuery.mk [] [] [] none [] none (some SortBy.name) [])
            (List.filter (matchesFilter (StructuredQuery.mk [] [] [] none [] none (some SortBy.name) [])) [])) :=
  ⟨by decide,
   (claim3_truncation (StructuredQuery.mk [] [] [] none [] none (some SortBy.name) []) [] 0).2.2
     (by decide)⟩

/-! ### Claim C5: type-change cascade (spec rule 4.1.7, Scenario D) -/

/-- Claim C5: whenever the suggestion genuinely specifies a category —
an explicit non-empty `product_types` assertion (even one textually
identical to the prior value, Scenario D) or a fuzzy category expansion —
the resolved query has empty `tags` and `keywords`. -/
theorem claim5_type_change_cascade (t : String) (prior : StructuredQuery)
    (s : Suggestion)
    (h : (assertedNonEmptyS s.product_types || (fuzzyFor t s).isSome) = true) :
    (resolve t prior (some s)).tags = []
    ∧ (resolve t prior (some s)).keywords = [] := by
  unfold resolve
  simp [h]

/-- Scenario D prior: sandwiches already selected, with tag and keyword
narrowing. -/
def priorD : StructuredQuery :=
  ⟨[], [], ["sandwich"], none, ["vegan"], none, none, ["Coke"]⟩

/-- Scenario D suggestion: `product_types` asserted with the same value
as the prior. -/
def suggD : Suggestion := { emptySuggestion with product_types := some ["sandwich"] }

/-- Witness for C5: Scenario D — the asserted `product_types` equals the
prior value textually, yet `tags` and `keywords` are cleared. -/
theorem claim5_witness :
    (assertedNonEmptyS suggD.product_types
      || (fuzzyFor "show me sandwiches" suggD).isSome) = true
    ∧ ((resolve "show me sandwiches" priorD (some suggD)).tags = []
      ∧ (resolve "show me sandwiches" priorD (some suggD)).keywords = []) :=
  ⟨by decide, claim5_type_change_cascade "show me sandwiches" priorD suggD (by decide)⟩

/-! ### Claim C6: inheritance (spec rule 4.1.2, P5) — corrected -/

/-- Scenario C prior: two vendors actively included. -/
def priorC6 : StructuredQuery := ⟨["ASDA", "Subway"], [], [], none, [], none, none, []⟩

/-- Scenario C suggestion: only `exclude_vendors` is mentioned. -/
def suggC6 : Suggestion := { emptySuggestion with exclude_vendors := some ["ASDA"] }

/-- Counterexample to C6 as stated: in Scenario C the suggestion does not
mention `vendors`, yet the resolved `vendors` is cleared by the mutual
exclusion rule instead of being copied unchanged from the prior. -/
theorem claim6_counterexample :
    suggC6.vendors = none
    ∧ priorC6.vendors = ["ASDA", "Subway"]
    ∧ (resolve "not from ASDA" priorC6 (some suggC6)).vendors = [] := by
  refine ⟨rfl, rfl, ?_⟩
  decide

/-- P5 prior: a vendor filter and two keywords. -/
def priorP5 : StructuredQuery := ⟨["Subway"], [], [], none, [], none, none, ["Coke", "Pepsi"]⟩

/-- P5 suggestion: only `vendors` is mentioned, explicitly empty. -/
def suggP5 : Suggestion := { emptySuggestion with vendors := some [] }

/-- P5 expected resolution: vendors cleared, keywords untouched. -/
def resolvedP5 : StructuredQuery := ⟨[], [], [], none, [], none, none, ["Coke", "Pepsi"]⟩

/-- Claim C6 (amended): every field of the prior that the suggestion does
not explicitly mention is copied unchanged into the result, provided the
oracle produced a suggestion and the field is not cleared by a special
rule (vendor mutual exclusion and vendor reset for the vendor fields,
fuzzy expansion for `product_types`, the type-change cascade for `tags`
and `keywords`); in particular the P5 instance holds exactly as the
claim states it. -/
theorem claim6_inheritance (t : String) (prior : StructuredQuery) (s : Suggestion) :
    (s.brand = none → (resolve t prior (some s)).brand = prior.brand)
    ∧ (s.price_filter = none →
        (resolve t prior (some s)).price_filter = prior.price_filter)
    ∧ (s.sort_by = none → (resolve t prior (some s)).sort_by = prior.sort_by)
    ∧ (s.product_types = none → fuzzyFromText t = none →
        (resolve t prior (some s)).product_types = prior.product_types)
    ∧ ((assertedNonEmptyS s.product_types || (fuzzyFor t s).isSome) = false →
        s.tags = none → (resolve t prior (some s)).tags = prior.tags)
    ∧ ((assertedNonEmptyS s.product_types || (fuzzyFor t s).isSome) = false →
        s.keywords = none → (resolve t prior (some s)).keywords = prior.keywords)
    ∧ (signalsVendorReset t s = false → assertedNonEmptyS s.exclude_vendors = false →
        s.vendors = none → (resolve t prior (some s)).vendors = prior.vendors)
    ∧ (signalsVendorReset t s = false → assertedNonEmptyS s.vendors = false →
        s.exclude_vendors = none →
        (resolve t prior (some s)).exclude_vendors = prior.exclude_vendors)
    ∧ resolve "forget the shop" priorP5 (some suggP5) = resolvedP5 := by
  refine ⟨?_, ?_, ?_, ?_, ?_, ?_, ?_, ?_, by decide⟩
  · intro h; simp [resolve, h]
  · intro h; simp [resolve, h]
  · intro h; simp [resolve, h]
  · intro h hf; simp [resolve, fuzzyFor, fuzzyFromSugg, h, hf]
  · intro h ht; simp only [resolve]; rw [if_neg (by simp [h]), ht]; rfl
  · intro h hk; simp only [resolve]; rw [if_neg (by simp [h]), hk]; rfl
  · intro hr he hv; simp [resolve, hr, he, hv]
  · intro hr hv he; simp [resolve, hr, hv, he]

/-- Witness for C6 (amended) at a concrete input: an unmentioned `brand`
is inherited unchanged. -/
theorem claim6_witness :
    suggP5.brand = none
    ∧ (resolve "forget the shop" priorP5 (some suggP5)).brand = priorP5.brand :=
  ⟨rfl, (claim6_inheritance "forget the shop" priorP5 suggP5).1 rfl⟩

/-! ### Claim C4: error containment (spec §7, App.jsx lines 59-69) -/

/-- Claim C4: no failure surfaces as a raw exception.  On an oracle
failure the turn completes normally with zero products and the generic
apologetic message; on a frontend request failure, exactly one bot
message — the fixed apologetic one — is appended with zero products, and
the loading flag ends false. -/
theorem claim4_error_containment :
    (∀ t catalog st, isResetCommand t = false →
        (handleTurn t none catalog st).2.products = []
        ∧ (handleTurn t none catalog st).2.message = backendNoResultsMessage)
    ∧ (∀ m st, jsTrim m ≠ "" →
        handleSendMessage m BackendReply.failure st =
          ({ messages := st.messages ++
               [⟨true, m, []⟩, ⟨false, frontendErrorText, []⟩],
             isLoading := false }, true)) := by
  constructor
  · intro t catalog st h
    simp [handleTurn, h, resolve, search, searchAll, isEmptyQuery, emptyQuery,
      assembleMessage]
  · intro m st h
    simp [handleSendMessage, h]

/-- Witness for C4 at concrete inputs: an oracle-failure turn on a
non-reset utterance yields zero products and the apologetic message, and
a failed frontend request appends exactly the fixed error message. -/
theorem claim4_witness :
    (isResetCommand "find me pizza" = false
      ∧ ((handleTurn "find me pizza" none [] initConvState).2.products = []
        ∧ (handleTurn "find me pizza" none [] initConvState).2.message =
            backendNoResultsMessage))
    ∧ (jsTrim "hello" ≠ ""
      ∧ handleSendMessage "hello" BackendReply.failure ⟨[], false⟩ =
          (⟨[⟨true, "hello", []⟩, ⟨false, frontendErrorText, []⟩], false⟩, true)) :=
  ⟨⟨by decide, claim4_error_containment.1 "find me pizza" [] initConvState (by decide)⟩,
   ⟨by decide, claim4_error_containment.2 "hello" ⟨[], false⟩ (by decide)⟩⟩

/-! ### Claim C8: idempotent reset (spec P4, §4.4) -/

/-- Claim C8: a reset turn stores the fully cleared state and returns the
fixed confirmation with empty products, independently of the oracle and
the catalog (the Resolver and Engine are bypassed); a second consecutive
reset turn yields the identical state and identical response. -/
theorem claim8_reset_idempotent (t : String) (st : ConvState)
    (s1 s2 : Option Suggestion) (cat1 cat2 : List ProductRecord)
    (h : isResetCommand t = true) :
    handleTurn t s1 cat1 st = (initConvState, ⟨resetConfirmMessage, [], emptyQuery⟩)
    ∧ handleTurn t s2 cat2 (handleTurn t s1 cat1 st).1 =
        (initConvState, ⟨resetConfirmMessage, [], emptyQuery⟩) := by
  constructor <;> simp [handleTurn, h]

/-- Witness for C8 at a concrete input: " RESET " (trimmed,
case-insensitive) resets a state with active filters, twice, to the same
cleared state and identical confirmation. -/
theorem claim8_witness :
    isResetCommand " RESET " = true
    ∧ (handleTurn " RESET " none []
          ⟨⟨["Subway"], [], [], none, [], none, none, []⟩, "from Subway"⟩ =
        (initConvState, ⟨resetConfirmMessage, [], emptyQuery⟩)
      ∧ handleTurn " RESET " none []
          (handleTurn " RESET " none []
            ⟨⟨["Subway"], [], [], none, [], none, none, []⟩, "from Subway"⟩).1 =
        (initConvState, ⟨resetConfirmMessage, [], emptyQuery⟩)) :=
  ⟨by decide,
   claim8_reset_idempotent " RESET "
     ⟨⟨["Subway"], [], [], none, [], none, none, []⟩, "from Subway"⟩
     none none [] [] (by decide)⟩

/-! ### Claim C9: blank input performs no turn (App.jsx line 33,
ChatInput lines 72-78 and 109-115) -/

/-- Claim C9: for input whose trimmed form is empty, `handleSendMessage`
returns immediately — no message appended, no loading change, no HTTP
request — `ChatInput`'s submit handler never invokes `onSendMessage`,
and the send button is disabled. -/
theorem claim9_blank_input_no_turn (s : String) (h : jsTrim s = "") :
    (∀ reply st, handleSendMessage s reply st = (st, false))
    ∧ (∀ d, chatInputSubmit s d = none)
    ∧ (∀ d, sendButtonDisabled s d = true) := by
  refine ⟨fun reply st => ?_, fun d => ?_, fun d => ?_⟩
  · simp [handleSendMessage, h]
  · simp [chatInputSubmit, h]
  · simp [sendButtonDisabled, h]

/-- Witness for C9 at a concrete input: a whitespace-only input string. -/
theorem claim9_witness :
    jsTrim "   " = ""
    ∧ ((∀ reply st, handleSendMessage "   " reply st = (st, false))
      ∧ (∀ d, chatInputSubmit "   " d = none)
      ∧ (∀ d, sendButtonDisabled "   " d = true)) :=
  ⟨by decide, claim9_blank_input_no_turn "   " (by decide)⟩

/-! ### Claim C10: one user message, one bot message, loading cleared
(App.jsx lines 32-70) -/

/-- Claim C10: for non-blank input, `handleSendMessage` issues the
request and appends exactly one user message followed by exactly one bot
message — the response body with its possibly-absent product list on
success, the fixed error message with no products on failure — and the
loading flag is false when the call completes, on both paths. -/
theorem claim10_send_message_turn (m : String) (reply : BackendReply)
    (st : AppState) (h : jsTrim m ≠ "") :
    handleSendMessage m reply st =
      ({ messages := st.messages ++
           [⟨true, m, []⟩,
            match reply with
            | .ok bm ps => ⟨false, bm, ps.getD []⟩
            | .failure => ⟨false, frontendErrorText, []⟩],
         isLoading := false }, true) := by
  cases reply <;> simp [handleSendMessage, h]

/-- Witness for C10 at a concrete input: a successful reply whose body
has no `products` field appends the user message and one bot message
with an empty product list. -/
theorem claim10_witness :
    jsTrim "show me drinks" ≠ ""
    ∧ handleSendMessage "show me drinks" (BackendReply.ok "Here" none) ⟨[], true⟩ =
        (⟨[⟨true, "show me drinks", []⟩, ⟨false, "Here", []⟩], false⟩, true) :=
  ⟨by decide,
   claim10_send_message_turn "show me drinks" (BackendReply.ok "Here" none)
     ⟨[], true⟩ (by decide)⟩

/-! ### Sorting lemmas for Claim C7 -/

/-- Membership through stable insertion. -/
lemma mem_insLe (le : ProductRecord → ProductRecord → Bool)
    (a x : ProductRecord) (l : List ProductRecord) :
    x ∈ insLe le a l ↔ x = a ∨ x ∈ l := by
  induction l with
  | nil => simp [insLe]
  | cons b bs ih =>
    unfold insLe
    by_cases h : le a b = true
    · simp [h]
    · rw [if_neg h]
      simp only [List.mem_cons, ih]
      tauto

/-- Stable insertion preserves pairwise sortedness, given a total and
transitive comparator. -/
lemma pairwise_insLe (le : ProductRecord → ProductRecord → Bool)
    (htot : ∀ a b, (le a b || le b a) = true)
    (htr : ∀ a b c, le a b = true → le b c = true → le a c = true)
    (a : ProductRecord) (l : List ProductRecord)
    (h : l.Pairwise (fun x y => le x y = true)) :
    (insLe le a l).Pairwise (fun x y => le x y = true) := by
  induction l with
  | nil => simp [insLe]
  | cons b bs ih =>
    obtain ⟨hb, hbs⟩ := List.pairwise_cons.mp h
    unfold insLe
    by_cases hab : le a b = true
    · simp only [hab, if_true]
      refine List.pairwise_cons.mpr ⟨?_, h⟩
      intro x hx
      rcases List.mem_cons.mp hx with rfl | hx'
      · exact hab
      · exact htr _ _ _ hab (hb x hx')
    · rw [if_neg hab]
      refine List.pairwise_cons.mpr ⟨?_, ih hbs⟩
      intro x hx
      rcases (mem_insLe le a x bs).mp hx with hxa | hx'
      · rw [hxa]
        have hor := htot a b
        cases hle : le a b
        · simpa [hle] using hor
        · exact absurd hle hab
      · exact hb x hx'

/-- The engine's insertion sort is pairwise sorted for a total and
transitive comparator. -/
lemma pairwise_sortRecords (le : ProductRecord → ProductRecord → Bool)
    (htot : ∀ a b, (le a b || le b a) = true)
    (htr : ∀ a b c, le a b = true → le b c = true → le a c = true)
    (l : List ProductRecord) :
    (sortRecords le l).Pairwise (fun x y => le x y = true) := by
  induction l with
  | nil => simp [sortRecords]
  | cons a as ih => exact pairwise_insLe le htot htr a _ ih

/-- The head of a sorted non-empty list is below every tail element. -/
lemma sortRecords_head_le (le : ProductRecord → ProductRecord → Bool)
    (htot : ∀ a b, (le a b || le b a) = true)
    (htr : ∀ a b c, le a b = true → le b c = true → le a c = true)
    {l : List ProductRecord} {r : ProductRecord} {xs : List ProductRecord}
    (h : sortRecords le l = r :: xs) :
    ∀ x ∈ xs, le r x = true := by
  have hp := pairwise_sortRecords le htot htr l
  rw [h] at hp
  exact fun x hx => (List.pairwise_cons.mp hp).1 x hx

/-- The ascending price comparator is total. -/
lemma leAsc_total : ∀ a b, (leAsc a b || leAsc b a) = true := by
  intro a b
  simp only [leAsc, Bool.or_eq_true, Bool.and_eq_true, decide_eq_true_eq]
  rcases lt_trichotomy a.price b.price with h | h | h
  · tauto
  · rcases le_total a.name b.name with hn | hn
    · exact Or.inl (Or.inr ⟨h, hn⟩)
    · exact Or.inr (Or.inr ⟨h.symm, hn⟩)
  · tauto

/-- The ascending price comparator is transitive. -/
lemma leAsc_trans : ∀ a b c, leAsc a b = true → leAsc b c = true → leAsc a c = true := by
  intro a b c hab hbc
  simp only [leAsc, Bool.or_eq_true, Bool.and_eq_true, decide_eq_true_eq] at *
  rcases hab with h1 | ⟨h1, h1n⟩ <;> rcases hbc with h2 | ⟨h2, h2n⟩
  · exact Or.inl (h1.trans h2)
  · exact Or.inl (h2 ▸ h1)
  · exact Or.inl (h1 ▸ h2)
  · exact Or.inr ⟨h1.trans h2, h1n.trans h2n⟩

/-- An ascending comparison bounds the price. -/
lemma leAsc_price {a b : ProductRecord} (h : leAsc a b = true) :
    a.price ≤ b.price := by
  simp only [leAsc, Bool.or_eq_true, Bool.and_eq_true, decide_eq_true_eq] at h
  rcases h with h | ⟨h, _⟩
  · exact le_of_lt h
  · exact le_of_eq h

/-- The descending price comparator is total. -/
lemma leDesc_total : ∀ a b, (leDesc a b || leDesc b a) = true := by
  intro a b
  simp only [leDesc, Bool.or_eq_true, Bool.and_eq_true, decide_eq_true_eq]
  rcases lt_trichotomy a.price b.price with h | h | h
  · tauto
  · rcases le_total a.name b.name with hn | hn
    · exact Or.inl (Or.inr ⟨h, hn⟩)
    · exact Or.inr (Or.inr ⟨h.symm, hn⟩)
  · tauto

/-- The descending price comparator is transitive. -/
lemma leDesc_trans : ∀ a b c, leDesc a b = true → leDesc b c = true → leDesc a c = true := by
  intro a b c hab hbc
  simp only [leDesc, Bool.or_eq_true, Bool.and_eq_true, decide_eq_true_eq] at *
  rcases hab with h1 | ⟨h1, h1n⟩ <;> rcases hbc with h2 | ⟨h2, h2n⟩
  · exact Or.inl (h2.trans h1)
  · exact Or.inl (h2 ▸ h1)
  · exact Or.inl (h1 ▸ h2)
  · exact Or.inr ⟨h1.trans h2, h1n.trans h2n⟩

/-- A descending comparison bounds the price from below. -/
lemma leDesc_price {a b : ProductRecord} (h : leDesc a b = true) :
    b.price ≤ a.price := by
  simp only [leDesc, Bool.or_eq_true, Bool.and_eq_true, decide_eq_true_eq] at h
  rcases h with h | ⟨h, _⟩
  · exact le_of_lt h
  · exact le_of_eq h.symm

/-- The extremal annotation never occurs among the base reasons. -/
lemma extremal_not_in_baseReasons (q : StructuredQuery)
    (hpf : q.price_filter = none) :
    Reason.cheapest ∉ baseReasons q ∧ Reason.mostExpensive ∉ baseReasons q := by
  constructor <;>
  · intro hmem
    simp only [baseReasons, hpf, List.nil_append] at hmem
    rcases h : q.tags.isEmpty <;> simp [h] at hmem

/-! ### Claim C7: extremal annotation (spec §4.2 reasons, Scenario E) -/

/-- Claim C7: for a query sorting by price with no `price_filter`, the
first result of the final pre-truncation result set — the single
cheapest (respectively most expensive) one, whose price bounds every
other result's — carries the "cheapest option" (respectively
"most expensive option") annotation, and no other result carries it. -/
theorem claim7_extremal (q : StructuredQuery) (catalog : List ProductRecord)
    (hpf : q.price_filter = none) :
    (q.sort_by = some SortBy.price_asc →
      ∀ top rest, searchAll q catalog = top :: rest →
        Reason.cheapest ∈ top.reasons
        ∧ (∀ rr ∈ rest, Reason.cheapest ∉ rr.reasons)
        ∧ (∀ rr ∈ searchAll q catalog, top.record.price ≤ rr.record.price))
    ∧ (q.sort_by = some SortBy.price_desc →
      ∀ top rest, searchAll q catalog = top :: rest →
        Reason.mostExpensive ∈ top.reasons
        ∧ (∀ rr ∈ rest, Reason.mostExpensive ∉ rr.reasons)
        ∧ (∀ rr ∈ searchAll q catalog, rr.record.price ≤ top.record.price)) := by
  constructor
  · intro hsb top rest heq
    have hq : ¬ isEmptyQuery q = true := by simp [isEmptyQuery, hsb]
    have hs : searchAll q catalog =
        annotateResults q (sortRecords leAsc (catalog.filter (matchesFilter q))) := by
      rw [searchAll, if_neg hq]
      unfold sortResults
      rw [hsb]
    rw [hs] at heq
    rcases hsort : sortRecords leAsc (catalog.filter (matchesFilter q)) with _ | ⟨r, xs⟩
    · rw [hsort] at heq
      simp [annotateResults] at heq
    · rw [hsort] at heq
      simp only [annotateResults] at heq
      rw [List.cons.injEq] at heq
      obtain ⟨htop, hrest⟩ := heq
      have hex : extremalReason q = [Reason.cheapest] := by
        simp [extremalReason, hpf, hsb]
      have hbase := (extremal_not_in_baseReasons q hpf).1
      subst htop
      refine ⟨by simp [hex], ?_, ?_⟩
      · intro rr hm
        rw [← hrest] at hm
        rcases List.mem_map.mp hm with ⟨x, _, hxeq⟩
        rw [← hxeq]
        exact hbase
      · intro rr hm
        rw [hs, hsort] at hm
        simp only [annotateResults] at hm
        rcases List.mem_cons.mp hm with hrr | hrr
        · rw [hrr]
        · rcases List.mem_map.mp hrr with ⟨x, hx, hxeq⟩
          have hle := sortRecords_head_le leAsc leAsc_total leAsc_trans hsort x hx
          rw [← hxeq]
          exact leAsc_price hle
  · intro hsb top rest heq
    have hq : ¬ isEmptyQuery q = true := by simp [isEmptyQuery, hsb]
    have hs : searchAll q catalog =
        annotateResults q (sortRecords leDesc (catalog.filter (matchesFilter q))) := by
      rw [searchAll, if_neg hq]
      unfold sortResults
      rw [hsb]
    rw [hs] at heq
    rcases hsort : sortRecords leDesc (catalog.filter (matchesFilter q)) with _ | ⟨r, xs⟩
    · rw [hsort] at heq
      simp [annotateResults] at heq
    · rw [hsort] at heq
      simp only [annotateResults] at heq
      rw [List.cons.injEq] at heq
      obtain ⟨htop, hrest⟩ := heq
      have hex : extremalReason q = [Reason.mostExpensive] := by
        simp [extremalReason, hpf, hsb]
      have hbase := (extremal_not_in_baseReasons q hpf).2
      subst htop
      refine ⟨by simp [hex], ?_, ?_⟩
      · intro rr hm
        rw [← hrest] at hm
        rcases List.mem_map.mp hm with ⟨x, _, hxeq⟩
        rw [← hxeq]
        exact hbase
      · intro rr hm
        rw [hs, hsort] at hm
        simp only [annotateResults] at hm
        rcases List.mem_cons.mp hm with hrr | hrr
        · rw [hrr]
        · rcases List.mem_map.mp hrr with ⟨x, hx, hxeq⟩
          have hle := sortRecords_head_le leDesc leDesc_total leDesc_trans hsort x hx
          rw [← hxeq]
          exact leDesc_price hle

/-- Scenario E record priced 1.50. -/
def recE1 : ProductRecord :=
  ⟨"e1", "Water", "Aqua", mkRat 3 2, "ASDA", "drink", [], none, none⟩

/-- Scenario E record priced 3.00. -/
def recE2 : ProductRecord :=
  ⟨"e2", "Juice", "Tropic", 3, "ASDA", "drink", [], none, none⟩

/-- Scenario E record priced 2.00. -/
def recE3 : ProductRecord :=
  ⟨"e3", "Cola", "Coke", 2, "ASDA", "drink", [], none, none⟩

/-- Scenario E query: only `sort_by = price_desc`. -/
def queryE : StructuredQuery :=
  ⟨[], [], [], none, [], none, some SortBy.price_desc, []⟩

/-- Scenario E catalog with prices [1.50, 3.00, 2.00]. -/
def catalogE : List ProductRecord := [recE1, recE2, recE3]

/-- Scenario E expected top result: the 3.00 record, annotated. -/
def topE : RankedResult := ⟨recE2, [Reason.mostExpensive]⟩

/-- Scenario E expected remaining results, unannotated. -/
def restE : List RankedResult := [⟨recE3, []⟩, ⟨recE1, []⟩]

/-- Witness for C7: Scenario E — catalog priced [1.50, 3.00, 2.00] with
`sort_by = price_desc`; the top result is the 3.00 record and only it
carries "most expensive option". -/
theorem claim7_witness :
    queryE.price_filter = none
    ∧ queryE.sort_by = some SortBy.price_desc
    ∧ searchAll queryE catalogE = topE :: restE
    ∧ (Reason.mostExpensive ∈ topE.reasons
      ∧ (∀ rr ∈ restE, Reason.mostExpensive ∉ rr.reasons)
      ∧ (∀ rr ∈ searchAll queryE catalogE, rr.record.price ≤ topE.record.price)) :=
  ⟨rfl, rfl, by decide,
   (claim7_extremal queryE catalogE rfl).2 rfl topE restE (by decide)⟩
